import Mathlib

/-!
Verification of the determinate beam analysis engine of the
SiliconWit mechanics-of-materials repository.

Every script in the repository hard-codes one beam fixture and computes
support reactions, shear force V(x) and bending moment M(x) with closed-form
statics.  The Python floats are modelled by exact rationals; all formulas are
transcribed one-to-one from the source files:

* ConveyorBeamAnalysis    (codes/lesson-2-2/conveyor_beam_analysis.py)
* CraneJibAnalysis        (codes/lesson-2-2/crane_jib_analysis.py)
* SolarTrackerArmAnalysis (codes/lesson-2-2/solar_tracker_arm_analysis.py)
* PantographArmAnalysis   (codes/lesson-2-2/pantograph_arm_analysis.py)
* PantographAnalysis      (codes/lesson-2-2/pantograph_calculations.py)
* RoboticArmAnalysis      (structural-analysis-lab/lab1_robotic_arm_analysis.py)
* RoboticArmCantileverAnalysis (codes/lesson-2-2/robotic_arm_cantilever_analysis.py)

A general two-support model (`Beam`, `RA`, `RB`, `shearAt`, `momentAt`)
captures the common equilibrium / cut-method pattern those scripts share;
instance lemmas prove that each script's hard-coded formulas coincide with
the general ones on its fixture.
-/

/-- A point load: `position` (measured from support A at x = 0) and a
downward `magnitude`, as in the scripts' paired `load position` / `P`
constants. -/
structure PointLoad where
  pos : ℚ
  mag : ℚ
deriving DecidableEq

/-- A uniformly distributed load of the given `intensity` over
`[start, stop]`, as in the scripts' `w` over the beam span. -/
structure DistLoad where
  start : ℚ
  stop : ℚ
  intensity : ℚ
deriving DecidableEq

/-- A two-non-fixed-support beam: support A at x = 0, support B at `xB`,
total `length`, and the owned loads.  This is the configuration solved by
the conveyor, crane-jib and solar-tracker scripts. -/
structure Beam where
  length : ℚ
  xB : ℚ
  pointLoads : List PointLoad
  distLoads : List DistLoad

/-- Total downward point load `Σ P_i`. -/
def Beam.totalPoint (b : Beam) : ℚ :=
  (b.pointLoads.map (fun p => p.mag)).sum

/-- Total downward distributed load `Σ intensity_j × length_j`. -/
def Beam.totalDist (b : Beam) : ℚ :=
  (b.distLoads.map (fun d => d.intensity * (d.stop - d.start))).sum

/-- Sum of load moments about support A:
`Σ P_i·x_i + Σ intensity_j·length_j·centroid_j`, the numerator every script
builds before dividing by the support distance. -/
def Beam.momentAboutA (b : Beam) : ℚ :=
  (b.pointLoads.map (fun p => p.mag * p.pos)).sum +
    (b.distLoads.map (fun d =>
      d.intensity * (d.stop - d.start) * ((d.start + d.stop) / 2))).sum

/-- Reaction at support B from moment equilibrium about A, exactly the
`R_B = moment_sum / dist(B, A)` step of `calculate_reactions` in the
conveyor, crane-jib and solar-tracker scripts. -/
def RB (b : Beam) : ℚ := b.momentAboutA / b.xB

/-- Reaction at support A from vertical force balance,
`R_A = total downward load - R_B`, as in each script. -/
def RA (b : Beam) : ℚ := b.totalPoint + b.totalDist - RB b

/-- Shear force by the cut method, forces left of the cut taken positive
upward, with loads exactly at the cut included — the convention of
`CraneJibAnalysis.calculate_shear_forces` (conditions `x*1000 >= pos`). -/
def shearAt (b : Beam) (x : ℚ) : ℚ :=
  (if 0 ≤ x then RA b else 0) + (if b.xB ≤ x then RB b else 0) -
    (b.pointLoads.map (fun p => if p.pos ≤ x then p.mag else 0)).sum -
    (b.distLoads.map (fun d =>
      if d.start ≤ x then d.intensity * (min x d.stop - d.start) else 0)).sum

/-- Bending moment by the cut method: moments about the cut of every force
strictly left of it, the pattern of `calculate_moments` in the conveyor,
crane-jib and solar-tracker scripts (conditions `x > pos`). -/
def momentAt (b : Beam) (x : ℚ) : ℚ :=
  RA b * x + (if b.xB < x then RB b * (x - b.xB) else 0) -
    (b.pointLoads.map (fun p => if p.pos < x then p.mag * (x - p.pos) else 0)).sum -
    (b.distLoads.map (fun d =>
      if d.start < x then
        d.intensity * (min x d.stop - d.start) * (x - (d.start + min x d.stop) / 2)
      else 0)).sum

/-- Vertical reaction of a cantilever's fixed support: the sum of all
downward loads, as in `RoboticArmAnalysis.calculate_reactions`
(`R_y = P`) and `RoboticArmCantileverAnalysis.calculate_reactions`
(`R_y = P + W_total`). -/
def cantileverRy (pts : List PointLoad) (dists : List DistLoad) : ℚ :=
  (pts.map (fun p => p.mag)).sum +
    (dists.map (fun d => d.intensity * (d.stop - d.start))).sum

/-- Reaction moment of a cantilever's fixed support at x = 0: each load
times its distance from the fixed end, as in `M_A = P × L` (lab 1) and
`M_base = P·L + W_total·(L/2)` (robotic arm cantilever). -/
def cantileverMfixed (pts : List PointLoad) (dists : List DistLoad) : ℚ :=
  (pts.map (fun p => p.mag * p.pos)).sum +
    (dists.map (fun d =>
      d.intensity * (d.stop - d.start) * ((d.start + d.stop) / 2))).sum

/-! ## ConveyorBeamAnalysis (units: mm, N; simply supported, five point loads) -/

/-- `self.L = 2000` mm. -/
def ConveyorBeamAnalysis.L : ℚ := 2000

/-- `self.P = 400` N per box. -/
def ConveyorBeamAnalysis.P : ℚ := 400

/-- `self.load_positions = [200, 600, 1000, 1400, 1800]` mm. -/
def ConveyorBeamAnalysis.load_positions : List ℚ := [200, 600, 1000, 1400, 1800]

/-- `self.W_total = self.n_loads * self.P`. -/
def ConveyorBeamAnalysis.W_total : ℚ := 5 * ConveyorBeamAnalysis.P

/-- `moment_sum = sum([self.P * x for x in self.load_positions])`. -/
def ConveyorBeamAnalysis.moment_sum : ℚ :=
  (ConveyorBeamAnalysis.load_positions.map (fun x => ConveyorBeamAnalysis.P * x)).sum

/-- `self.R_B = moment_sum / self.L`. -/
def ConveyorBeamAnalysis.R_B : ℚ :=
  ConveyorBeamAnalysis.moment_sum / ConveyorBeamAnalysis.L

/-- `self.R_A = self.W_total - self.R_B`. -/
def ConveyorBeamAnalysis.R_A : ℚ :=
  ConveyorBeamAnalysis.W_total - ConveyorBeamAnalysis.R_B

/-- `calculate_shear_forces`: start from `R_A`, subtract `P` for every load
with `x > load_pos` (strictly left of the cut; x in mm). -/
def ConveyorBeamAnalysis.V (x : ℚ) : ℚ :=
  ConveyorBeamAnalysis.R_A -
    (ConveyorBeamAnalysis.load_positions.map
      (fun p => if p < x then ConveyorBeamAnalysis.P else 0)).sum

/-- `calculate_moments`: `R_A*x` minus `P*(x - load_pos)` for every load
with `x > load_pos` (x in mm, M in N·mm). -/
def ConveyorBeamAnalysis.M (x : ℚ) : ℚ :=
  ConveyorBeamAnalysis.R_A * x -
    (ConveyorBeamAnalysis.load_positions.map
      (fun p => if p < x then ConveyorBeamAnalysis.P * (x - p) else 0)).sum

/-- The conveyor fixture as a general `Beam` (mm, N). -/
def conveyorBeam : Beam :=
  { length := 2000
    xB := 2000
    pointLoads :=
      [⟨200, 400⟩, ⟨600, 400⟩, ⟨1000, 400⟩, ⟨1400, 400⟩, ⟨1800, 400⟩]
    distLoads := [] }

/-! ## CraneJibAnalysis (x in m, V in N, M in N·m; overhanging beam) -/

/-- `self.P1 = 5000 * 1.4` N (dynamic amplification). -/
def CraneJibAnalysis.P1 : ℚ := 5000 * (14 / 10)

/-- `self.P2 = 3000 * 1.4` N. -/
def CraneJibAnalysis.P2 : ℚ := 3000 * (14 / 10)

/-- `self.w = 800` N/m. -/
def CraneJibAnalysis.w : ℚ := 800

/-- `self.L_total = 3000 + 1000` mm. -/
def CraneJibAnalysis.L_total : ℚ := 3000 + 1000

/-- `self.W_total = self.w * (self.L_total / 1000)`. -/
def CraneJibAnalysis.W_total : ℚ :=
  CraneJibAnalysis.w * (CraneJibAnalysis.L_total / 1000)

/-- `self.x_P1 = 1500` mm. -/
def CraneJibAnalysis.x_P1 : ℚ := 1500

/-- `self.x_P2 = 4000` mm. -/
def CraneJibAnalysis.x_P2 : ℚ := 4000

/-- `self.x_support_B = 3000` mm. -/
def CraneJibAnalysis.x_support_B : ℚ := 3000

/-- `R_B = (moment_P1 + moment_W + moment_P2) / (x_support_B / 1000)`. -/
def CraneJibAnalysis.R_B : ℚ :=
  (CraneJibAnalysis.P1 * (CraneJibAnalysis.x_P1 / 1000) +
      CraneJibAnalysis.W_total * (CraneJibAnalysis.L_total / 2000) +
      CraneJibAnalysis.P2 * (CraneJibAnalysis.x_P2 / 1000)) /
    (CraneJibAnalysis.x_support_B / 1000)

/-- `R_A = (P1 + W_total + P2) - R_B`. -/
def CraneJibAnalysis.R_A : ℚ :=
  CraneJibAnalysis.P1 + CraneJibAnalysis.W_total + CraneJibAnalysis.P2 -
    CraneJibAnalysis.R_B

/-- `calculate_shear_forces` (x in m): start from `R_A`, subtract `w*x`,
then subtract `P1`, add `R_B`, subtract `P2` once `x*1000 >= `their
position (loads exactly at the cut are included). -/
def CraneJibAnalysis.V (x : ℚ) : ℚ :=
  CraneJibAnalysis.R_A - CraneJibAnalysis.w * x -
    (if CraneJibAnalysis.x_P1 ≤ x * 1000 then CraneJibAnalysis.P1 else 0) +
    (if CraneJibAnalysis.x_support_B ≤ x * 1000 then CraneJibAnalysis.R_B else 0) -
    (if CraneJibAnalysis.x_P2 ≤ x * 1000 then CraneJibAnalysis.P2 else 0)

/-- `calculate_moments` (x in m): `0` at `x == 0`, otherwise moments of
everything strictly left of the cut (`x*1000 > pos`), the distributed load
entering as `(w*x)*(x/2)`. -/
def CraneJibAnalysis.M (x : ℚ) : ℚ :=
  if x = 0 then 0
  else
    CraneJibAnalysis.R_A * x - CraneJibAnalysis.w * x * (x / 2) -
      (if CraneJibAnalysis.x_P1 < x * 1000 then
        CraneJibAnalysis.P1 * (x - CraneJibAnalysis.x_P1 / 1000) else 0) +
      (if CraneJibAnalysis.x_support_B < x * 1000 then
        CraneJibAnalysis.R_B * (x - CraneJibAnalysis.x_support_B / 1000) else 0) -
      (if CraneJibAnalysis.x_P2 < x * 1000 then
        CraneJibAnalysis.P2 * (x - CraneJibAnalysis.x_P2 / 1000) else 0)

/-- The crane-jib fixture as a general `Beam` (m, N). -/
def craneBeam : Beam :=
  { length := 4
    xB := 3
    pointLoads := [⟨3 / 2, 7000⟩, ⟨4, 4200⟩]
    distLoads := [⟨0, 4, 800⟩] }

/-! ## SolarTrackerArmAnalysis (x in mm, V in N, M in N·m; overhanging) -/

/-- `self.w = 300` N/m. -/
def SolarTrackerArmAnalysis.w : ℚ := 300

/-- `self.P = 600` N at the tip. -/
def SolarTrackerArmAnalysis.P : ℚ := 600

/-- `self.x_B = 2500` mm (roller support). -/
def SolarTrackerArmAnalysis.x_B : ℚ := 2500

/-- `self.L_span = 2500` mm. -/
def SolarTrackerArmAnalysis.L_span : ℚ := 2500

/-- `self.L_total = 3000` mm. -/
def SolarTrackerArmAnalysis.L_total : ℚ := 3000

/-- `self.W_total = self.w * (self.L_total / 1000)`. -/
def SolarTrackerArmAnalysis.W_total : ℚ :=
  SolarTrackerArmAnalysis.w * (SolarTrackerArmAnalysis.L_total / 1000)

/-- `R_B = (moment_from_w + moment_from_P) / (L_span / 1000)`. -/
def SolarTrackerArmAnalysis.R_B : ℚ :=
  (SolarTrackerArmAnalysis.w * (SolarTrackerArmAnalysis.L_total / 1000) *
        (SolarTrackerArmAnalysis.L_total / 1000 / 2) +
      SolarTrackerArmAnalysis.P * (SolarTrackerArmAnalysis.L_total / 1000)) /
    (SolarTrackerArmAnalysis.L_span / 1000)

/-- `R_A = W_total + P - R_B`. -/
def SolarTrackerArmAnalysis.R_A : ℚ :=
  SolarTrackerArmAnalysis.W_total + SolarTrackerArmAnalysis.P -
    SolarTrackerArmAnalysis.R_B

/-- `calculate_shear_forces` (x in mm): `R_A - w*(x/1000)` between the
supports, plus `R_B` beyond the roller. -/
def SolarTrackerArmAnalysis.V (x : ℚ) : ℚ :=
  if x ≤ SolarTrackerArmAnalysis.x_B then
    SolarTrackerArmAnalysis.R_A - SolarTrackerArmAnalysis.w * (x / 1000)
  else
    SolarTrackerArmAnalysis.R_A - SolarTrackerArmAnalysis.w * (x / 1000) +
      SolarTrackerArmAnalysis.R_B

/-- `calculate_moments` (x in mm, M in N·m): `R_A*x_m - w*x_m²/2` between
the supports, plus `R_B*(x_m - 2.5)` beyond the roller. -/
def SolarTrackerArmAnalysis.M (x : ℚ) : ℚ :=
  if x ≤ SolarTrackerArmAnalysis.x_B then
    SolarTrackerArmAnalysis.R_A * (x / 1000) -
      SolarTrackerArmAnalysis.w * (x / 1000) * (x / 1000) / 2
  else
    SolarTrackerArmAnalysis.R_A * (x / 1000) -
      SolarTrackerArmAnalysis.w * (x / 1000) * (x / 1000) / 2 +
      SolarTrackerArmAnalysis.R_B * (x / 1000 - SolarTrackerArmAnalysis.L_span / 1000)

/-- The solar-tracker fixture as a general `Beam` (m, N). -/
def solarBeam : Beam :=
  { length := 3
    xB := 5 / 2
    pointLoads := [⟨3, 600⟩]
    distLoads := [⟨0, 3, 300⟩] }

/-! ## PantographArmAnalysis (pin + spring; x in m, M in N·m) -/

/-- `self.L = 1200` mm. -/
def PantographArmAnalysis.L : ℚ := 1200

/-- `self.x_spring = 300` mm. -/
def PantographArmAnalysis.x_spring : ℚ := 300

/-- `self.P = 800` N at the tip. -/
def PantographArmAnalysis.P : ℚ := 800

/-- `self.F_spring = (self.P * self.L) / self.x_spring` (moment balance
about the pin). -/
def PantographArmAnalysis.F_spring : ℚ :=
  PantographArmAnalysis.P * PantographArmAnalysis.L / PantographArmAnalysis.x_spring

/-- `self.R_A = self.P - self.F_spring` (vertical balance; negative means
the pin pulls down). -/
def PantographArmAnalysis.R_A : ℚ :=
  PantographArmAnalysis.P - PantographArmAnalysis.F_spring

/-- `calculate_shear_forces` (x in m): `R_A` before the spring,
`R_A + F_spring` after it. -/
def PantographArmAnalysis.V (x : ℚ) : ℚ :=
  if x * 1000 ≤ PantographArmAnalysis.x_spring then PantographArmAnalysis.R_A
  else PantographArmAnalysis.R_A + PantographArmAnalysis.F_spring

/-- `calculate_moments` (x in m, M in N·m): `R_A*x` before the spring,
`R_A*x + F_spring*(x - x_spring/1000)` after it. -/
def PantographArmAnalysis.M (x : ℚ) : ℚ :=
  if x * 1000 ≤ PantographArmAnalysis.x_spring then PantographArmAnalysis.R_A * x
  else
    PantographArmAnalysis.R_A * x +
      PantographArmAnalysis.F_spring * (x - PantographArmAnalysis.x_spring / 1000)

/-! ## PantographAnalysis (pantograph_calculations.py: fixed cantilever
model of the same arm; x in mm, M in N·mm) -/

/-- `self.L = 1200` mm. -/
def PantographAnalysis.L : ℚ := 1200

/-- `self.P = 800` N. -/
def PantographAnalysis.P : ℚ := 800

/-- `calculate_bending_moment`: `M(x) = -P * x` (x measured from the free
end, N·mm). -/
def PantographAnalysis.M (x : ℚ) : ℚ := -PantographAnalysis.P * x

/-- `calculate_bending_moment`'s reported `max_moment = abs(P * L)`. -/
def PantographAnalysis.max_moment : ℚ :=
  |PantographAnalysis.P * PantographAnalysis.L|

/-! ## RoboticArmAnalysis (lab1: cantilever, x in mm) -/

/-- `self.L = 500` mm. -/
def RoboticArmAnalysis.L : ℚ := 500

/-- `self.P = 500` N at the free end. -/
def RoboticArmAnalysis.P : ℚ := 500

/-- `self.R_y = self.P` (vertical force equilibrium). -/
def RoboticArmAnalysis.R_y : ℚ := RoboticArmAnalysis.P

/-- `self.M_A = self.P * self.L` (moment equilibrium about the fixed
support, N·mm). -/
def RoboticArmAnalysis.M_A : ℚ := RoboticArmAnalysis.P * RoboticArmAnalysis.L

/-- `shear_force_function`: `np.where(x < self.L, -self.P, 0)`. -/
def RoboticArmAnalysis.V (x : ℚ) : ℚ :=
  if x < RoboticArmAnalysis.L then -RoboticArmAnalysis.P else 0

/-- `bending_moment_function`: `M(x) = -P * (L - x)` (N·mm). -/
def RoboticArmAnalysis.M (x : ℚ) : ℚ :=
  -RoboticArmAnalysis.P * (RoboticArmAnalysis.L - x)

/-! ## RoboticArmCantileverAnalysis (cantilever with UDL; loads in m, N) -/

/-- `self.L = 2500` mm. -/
def RoboticArmCantileverAnalysis.L : ℚ := 2500

/-- `self.w = 75` N/m. -/
def RoboticArmCantileverAnalysis.w : ℚ := 75

/-- `self.P = 1200` N at the free end. -/
def RoboticArmCantileverAnalysis.P : ℚ := 1200

/-- `self.W_total = self.w * (self.L / 1000)`. -/
def RoboticArmCantileverAnalysis.W_total : ℚ :=
  RoboticArmCantileverAnalysis.w * (RoboticArmCantileverAnalysis.L / 1000)

/-- `self.R_y = self.P + self.W_total`. -/
def RoboticArmCantileverAnalysis.R_y : ℚ :=
  RoboticArmCantileverAnalysis.P + RoboticArmCantileverAnalysis.W_total

/-- `self.M_base = P*(L/1000) + W_total*(L/1000/2)` (N·m). -/
def RoboticArmCantileverAnalysis.M_base : ℚ :=
  RoboticArmCantileverAnalysis.P * (RoboticArmCantileverAnalysis.L / 1000) +
    RoboticArmCantileverAnalysis.W_total * (RoboticArmCantileverAnalysis.L / 1000 / 2)

/-! ## Numeric evaluation lemmas for the fixtures -/

lemma conveyor_RB_eq : ConveyorBeamAnalysis.R_B = 1000 := by
  norm_num [ConveyorBeamAnalysis.R_B, ConveyorBeamAnalysis.moment_sum,
    ConveyorBeamAnalysis.load_positions, ConveyorBeamAnalysis.P,
    ConveyorBeamAnalysis.L]

lemma conveyor_RA_eq : ConveyorBeamAnalysis.R_A = 1000 := by
  norm_num [ConveyorBeamAnalysis.R_A, conveyor_RB_eq,
    ConveyorBeamAnalysis.W_total, ConveyorBeamAnalysis.P]

lemma crane_RB_eq : CraneJibAnalysis.R_B = 33700 / 3 := by
  norm_num [CraneJibAnalysis.R_B, CraneJibAnalysis.P1, CraneJibAnalysis.P2,
    CraneJibAnalysis.W_total, CraneJibAnalysis.w, CraneJibAnalysis.L_total,
    CraneJibAnalysis.x_P1, CraneJibAnalysis.x_P2, CraneJibAnalysis.x_support_B]

lemma crane_RA_eq : CraneJibAnalysis.R_A = 9500 / 3 := by
  norm_num [CraneJibAnalysis.R_A, crane_RB_eq, CraneJibAnalysis.P1,
    CraneJibAnalysis.P2, CraneJibAnalysis.W_total, CraneJibAnalysis.w,
    CraneJibAnalysis.L_total]

lemma solar_RB_eq : SolarTrackerArmAnalysis.R_B = 1260 := by
  norm_num [SolarTrackerArmAnalysis.R_B, SolarTrackerArmAnalysis.w,
    SolarTrackerArmAnalysis.P, SolarTrackerArmAnalysis.L_total,
    SolarTrackerArmAnalysis.L_span]

lemma solar_RA_eq : SolarTrackerArmAnalysis.R_A = 240 := by
  norm_num [SolarTrackerArmAnalysis.R_A, solar_RB_eq,
    SolarTrackerArmAnalysis.W_total, SolarTrackerArmAnalysis.w,
    SolarTrackerArmAnalysis.P, SolarTrackerArmAnalysis.L_total]

lemma pantograph_F_spring_eq : PantographArmAnalysis.F_spring = 3200 := by
  norm_num [PantographArmAnalysis.F_spring, PantographArmAnalysis.P,
    PantographArmAnalysis.L, PantographArmAnalysis.x_spring]

lemma pantograph_RA_eq : PantographArmAnalysis.R_A = -2400 := by
  norm_num [PantographArmAnalysis.R_A, pantograph_F_spring_eq,
    PantographArmAnalysis.P]

lemma RB_conveyorBeam_eq : RB conveyorBeam = 1000 := by
  norm_num [RB, Beam.momentAboutA, conveyorBeam]

lemma RA_conveyorBeam_eq : RA conveyorBeam = 1000 := by
  unfold RA
  rw [RB_conveyorBeam_eq]
  norm_num [Beam.totalPoint, Beam.totalDist, conveyorBeam]

lemma RB_craneBeam_eq : RB craneBeam = 33700 / 3 := by
  norm_num [RB, Beam.momentAboutA, craneBeam]

lemma RA_craneBeam_eq : RA craneBeam = 9500 / 3 := by
  unfold RA
  rw [RB_craneBeam_eq]
  norm_num [Beam.totalPoint, Beam.totalDist, craneBeam]

lemma RB_solarBeam_eq : RB solarBeam = 1260 := by
  norm_num [RB, Beam.momentAboutA, solarBeam]

lemma RA_solarBeam_eq : RA solarBeam = 240 := by
  unfold RA
  rw [RB_solarBeam_eq]
  norm_num [Beam.totalPoint, Beam.totalDist, solarBeam]

/-! ## List-sum lemmas for the general cut formula -/

/-- With every point load on the beam, the moment cut formula at the right
end takes in the full load list. -/
lemma sum_point_cut_full (L : ℚ) (l : List PointLoad)
    (h : ∀ p ∈ l, p.pos ≤ L) :
    (l.map (fun p => if p.pos < L then p.mag * (L - p.pos) else 0)).sum =
      L * (l.map (fun p => p.mag)).sum -
        (l.map (fun p => p.mag * p.pos)).sum := by
  induction l with
  | nil => simp
  | cons a t ih =>
    simp only [List.map_cons, List.sum_cons]
    have ha : a.pos ≤ L := h a (by simp)
    have ht : ∀ p ∈ t, p.pos ≤ L := fun p hp => h p (by simp [hp])
    rw [ih ht]
    rcases lt_or_eq_of_le ha with h1 | h1
    · rw [if_pos h1]; ring
    · rw [if_neg (by rw [h1]; exact lt_irrefl L), h1]; ring

/-- With every distributed load inside the beam, the moment cut formula at
the right end takes in each full span. -/
lemma sum_dist_cut_full (L : ℚ) (l : List DistLoad)
    (h : ∀ d ∈ l, d.start ≤ d.stop ∧ d.stop ≤ L) :
    (l.map (fun d =>
        if d.start < L then
          d.intensity * (min L d.stop - d.start) *
            (L - (d.start + min L d.stop) / 2)
        else 0)).sum =
      L * (l.map (fun d => d.intensity * (d.stop - d.start))).sum -
        (l.map (fun d =>
          d.intensity * (d.stop - d.start) * ((d.start + d.stop) / 2))).sum := by
  induction l with
  | nil => simp
  | cons a t ih =>
    simp only [List.map_cons, List.sum_cons]
    obtain ⟨ha1, ha2⟩ := h a (by simp)
    have ht : ∀ d ∈ t, d.start ≤ d.stop ∧ d.stop ≤ L :=
      fun d hd => h d (by simp [hd])
    rw [ih ht, min_eq_right ha2]
    rcases lt_or_eq_of_le (le_trans ha1 ha2) with h1 | h1
    · rw [if_pos h1]; ring
    · have hstop : a.stop = L := le_antisymm ha2 (h1 ▸ ha1)
      rw [if_neg (by rw [h1]; exact lt_irrefl L), h1, hstop]; ring

/-- Every summand of the point-load cut term vanishes at x = 0. -/
lemma sum_point_cut_zero (l : List PointLoad) (h : ∀ p ∈ l, 0 ≤ p.pos) :
    (l.map (fun p => if p.pos < 0 then p.mag * (0 - p.pos) else 0)).sum = 0 := by
  induction l with
  | nil => simp
  | cons a t ih =>
    simp only [List.map_cons, List.sum_cons]
    rw [if_neg (not_lt.mpr (h a (by simp))),
      ih (fun p hp => h p (by simp [hp]))]
    ring

/-- Every summand of the distributed-load cut term vanishes at x = 0. -/
lemma sum_dist_cut_zero (l : List DistLoad) (h : ∀ d ∈ l, 0 ≤ d.start) :
    (l.map (fun d =>
        if d.start < 0 then
          d.intensity * (min 0 d.stop - d.start) *
            (0 - (d.start + min 0 d.stop) / 2)
        else 0)).sum = 0 := by
  induction l with
  | nil => simp
  | cons a t ih =>
    simp only [List.map_cons, List.sum_cons]
    rw [if_neg (not_lt.mpr (h a (by simp))),
      ih (fun d hd => h d (by simp [hd]))]
    ring

/-- A strict-inequality shear indicator agrees with the inclusive one away
from the load position. -/
lemma ite_le_eq_ite_lt (p x c : ℚ) (h : x ≠ p) :
    (if p ≤ x then c else 0) = (if p < x then c else 0) := by
  rcases lt_trichotomy p x with h1 | h1 | h1
  · rw [if_pos h1.le, if_pos h1]
  · exact absurd h1.symm h
  · rw [if_neg (not_le.mpr h1), if_neg (not_lt.mpr h1.le)]

/-- The pin+spring moment distribution never exceeds 720 N·m in magnitude
on the arm (shared by the pantograph claims). -/
lemma pantographArm_M_bound :
    ∀ x : ℚ, 0 ≤ x → x ≤ 6 / 5 → |PantographArmAnalysis.M x| ≤ 720 := by
  intro x h0 h1
  rw [abs_le]
  simp only [PantographArmAnalysis.M, PantographArmAnalysis.x_spring,
    pantograph_RA_eq, pantograph_F_spring_eq]
  split_ifs with h <;> constructor <;> linarith

/-! # Claim theorems -/

/-- **C1**: for every beam solved by an Equilibrium Solver — the general
two-non-fixed-support model, and concretely the conveyor, crane-jib,
solar-tracker, pantograph pin+spring, and the two cantilever fixtures —
the sum of the computed upward reactions minus the sum of all point loads
and of all intensity × length distributed-load resultants equals 0
exactly, hence within any floating-point tolerance. -/
theorem equilibrium_invariant :
    (∀ b : Beam, RA b + RB b - (b.totalPoint + b.totalDist) = 0) ∧
    ConveyorBeamAnalysis.R_A + ConveyorBeamAnalysis.R_B -
      ConveyorBeamAnalysis.W_total = 0 ∧
    CraneJibAnalysis.R_A + CraneJibAnalysis.R_B -
      (CraneJibAnalysis.P1 + CraneJibAnalysis.W_total + CraneJibAnalysis.P2) = 0 ∧
    SolarTrackerArmAnalysis.R_A + SolarTrackerArmAnalysis.R_B -
      (SolarTrackerArmAnalysis.W_total + SolarTrackerArmAnalysis.P) = 0 ∧
    PantographArmAnalysis.R_A + PantographArmAnalysis.F_spring -
      PantographArmAnalysis.P = 0 ∧
    RoboticArmAnalysis.R_y - RoboticArmAnalysis.P = 0 ∧
    RoboticArmCantileverAnalysis.R_y -
      (RoboticArmCantileverAnalysis.P + RoboticArmCantileverAnalysis.W_total) = 0 := by
  refine ⟨fun b => ?_, ?_, ?_, ?_, ?_, ?_, ?_⟩
  · unfold RA; ring
  · rw [conveyor_RA_eq, conveyor_RB_eq]
    norm_num [ConveyorBeamAnalysis.W_total, ConveyorBeamAnalysis.P]
  · rw [crane_RA_eq, crane_RB_eq]
    norm_num [CraneJibAnalysis.P1, CraneJibAnalysis.P2,
      CraneJibAnalysis.W_total, CraneJibAnalysis.w, CraneJibAnalysis.L_total]
  · rw [solar_RA_eq, solar_RB_eq]
    norm_num [SolarTrackerArmAnalysis.W_total, SolarTrackerArmAnalysis.w,
      SolarTrackerArmAnalysis.L_total, SolarTrackerArmAnalysis.P]
  · rw [pantograph_RA_eq, pantograph_F_spring_eq]
    norm_num [PantographArmAnalysis.P]
  · norm_num [RoboticArmAnalysis.R_y]
  · norm_num [RoboticArmCantileverAnalysis.R_y]

/-- Witness for C1 at the conveyor fixture. -/
theorem equilibrium_invariant_witness :
    RA conveyorBeam + RB conveyorBeam -
      (conveyorBeam.totalPoint + conveyorBeam.totalDist) = 0 :=
  equilibrium_invariant.1 conveyorBeam

/-- **C2 counterexample**: the conveyor midspan moment is 520,000 N·mm,
not the claimed 1,400,000 N·mm. -/
theorem conveyor_Mmax_counterexample :
    ConveyorBeamAnalysis.M 1000 = 520000 ∧ (520000 : ℚ) ≠ 1400000 := by
  constructor
  · norm_num [ConveyorBeamAnalysis.M, ConveyorBeamAnalysis.load_positions,
      ConveyorBeamAnalysis.P, conveyor_RA_eq]
  · norm_num

/-- **C2 (amended)**: for the simply supported conveyor beam the engine
computes R_A = R_B = 1000 N, M(0) = M(2000) = 0, and the maximum bending
moment is 520,000 N·mm, attained at x = 1000 mm (midspan). -/
theorem conveyor_scenario_amended :
    ConveyorBeamAnalysis.R_A = 1000 ∧ ConveyorBeamAnalysis.R_B = 1000 ∧
    ConveyorBeamAnalysis.M 0 = 0 ∧ ConveyorBeamAnalysis.M 2000 = 0 ∧
    ConveyorBeamAnalysis.M 1000 = 520000 ∧
    ∀ x : ℚ, 0 ≤ x → x ≤ 2000 → ConveyorBeamAnalysis.M x ≤ 520000 := by
  refine ⟨conveyor_RA_eq, conveyor_RB_eq, ?_, ?_, ?_, ?_⟩
  · norm_num [ConveyorBeamAnalysis.M, ConveyorBeamAnalysis.load_positions,
      ConveyorBeamAnalysis.P, conveyor_RA_eq]
  · norm_num [ConveyorBeamAnalysis.M, ConveyorBeamAnalysis.load_positions,
      ConveyorBeamAnalysis.P, conveyor_RA_eq]
  · norm_num [ConveyorBeamAnalysis.M, ConveyorBeamAnalysis.load_positions,
      ConveyorBeamAnalysis.P, conveyor_RA_eq]
  · intro x h0 h2
    simp only [ConveyorBeamAnalysis.M, ConveyorBeamAnalysis.load_positions,
      ConveyorBeamAnalysis.P, conveyor_RA_eq, List.map_cons, List.map_nil,
      List.sum_cons, List.sum_nil]
    split_ifs <;> linarith

/-- Witness for C2's amended theorem at the midspan. -/
theorem conveyor_scenario_witness :
    ConveyorBeamAnalysis.M 1000 ≤ 520000 :=
  conveyor_scenario_amended.2.2.2.2.2 1000 (by norm_num) (by norm_num)

/-- **C5**: the pin+spring pantograph mechanism has F_spring = 3200 N,
R_pin = −2400 N, M(0) = 0, |M| maximal at the spring with
|M(0.3 m)| = 720 N·m, and M(1.2 m) = 0 (x in metres, M in N·m). -/
theorem pantograph_pin_spring_scenario :
    PantographArmAnalysis.F_spring = 3200 ∧
    PantographArmAnalysis.R_A = -2400 ∧
    PantographArmAnalysis.M 0 = 0 ∧
    |PantographArmAnalysis.M (3 / 10)| = 720 ∧
    PantographArmAnalysis.M (6 / 5) = 0 ∧
    ∀ x : ℚ, 0 ≤ x → x ≤ 6 / 5 → |PantographArmAnalysis.M x| ≤ 720 := by
  refine ⟨pantograph_F_spring_eq, pantograph_RA_eq, ?_, ?_, ?_,
    pantographArm_M_bound⟩
  · norm_num [PantographArmAnalysis.M, PantographArmAnalysis.x_spring]
  · have h : PantographArmAnalysis.M (3 / 10) = -720 := by
      norm_num [PantographArmAnalysis.M, PantographArmAnalysis.x_spring,
        pantograph_RA_eq, pantograph_F_spring_eq]
    rw [h, abs_of_nonpos (by norm_num)]
    norm_num
  · norm_num [PantographArmAnalysis.M, PantographArmAnalysis.x_spring,
      pantograph_RA_eq, pantograph_F_spring_eq]

/-- Witness for C5 at the spring position. -/
theorem pantograph_pin_spring_scenario_witness :
    |PantographArmAnalysis.M (3 / 10)| ≤ 720 :=
  pantograph_pin_spring_scenario.2.2.2.2.2 (3 / 10) (by norm_num) (by norm_num)

/-- The crane-jib moment at the midspan load point (x in m, M in N·m). -/
lemma crane_M_15_eq : CraneJibAnalysis.M (3 / 2) = 3850 := by
  norm_num [CraneJibAnalysis.M, CraneJibAnalysis.x_P1, CraneJibAnalysis.x_P2,
    CraneJibAnalysis.x_support_B, CraneJibAnalysis.P1, CraneJibAnalysis.P2,
    CraneJibAnalysis.w, crane_RA_eq, crane_RB_eq]

/-- The crane-jib moment over the roller support B. -/
lemma crane_M_3_eq : CraneJibAnalysis.M 3 = -4600 := by
  norm_num [CraneJibAnalysis.M, CraneJibAnalysis.x_P1, CraneJibAnalysis.x_P2,
    CraneJibAnalysis.x_support_B, CraneJibAnalysis.P1, CraneJibAnalysis.P2,
    CraneJibAnalysis.w, crane_RA_eq, crane_RB_eq]

/-- Global upper bound of the crane-jib moment distribution. -/
lemma crane_M_le : ∀ x : ℚ, 0 ≤ x → x ≤ 4 → CraneJibAnalysis.M x ≤ 3850 := by
  intro x h0 h4
  by_cases hx0 : x = 0
  · rw [hx0]
    norm_num [CraneJibAnalysis.M]
  · simp only [CraneJibAnalysis.M, CraneJibAnalysis.x_P1, CraneJibAnalysis.x_P2,
      CraneJibAnalysis.x_support_B, CraneJibAnalysis.P1, CraneJibAnalysis.P2,
      CraneJibAnalysis.w, crane_RA_eq, crane_RB_eq, if_neg hx0]
    rw [if_neg (by linarith : ¬(4000 : ℚ) < x * 1000)]
    rcases le_or_lt x (3 / 2) with h1 | h1
    · rw [if_neg (by linarith : ¬(1500 : ℚ) < x * 1000),
        if_neg (by linarith : ¬(3000 : ℚ) < x * 1000)]
      nlinarith [mul_nonneg (by linarith : (0 : ℚ) ≤ 3 / 2 - x)
        (by linarith : (0 : ℚ) ≤ 77 / 12 - x)]
    · rw [if_pos (by linarith : (1500 : ℚ) < x * 1000)]
      rcases le_or_lt x 3 with h2 | h2
      · rw [if_neg (by linarith : ¬(3000 : ℚ) < x * 1000)]
        nlinarith [mul_nonneg (by linarith : (0 : ℚ) ≤ x - 3 / 2)
          (by linarith : (0 : ℚ) ≤ 400 * x + 13300 / 3)]
      · rw [if_pos (by linarith : (3000 : ℚ) < x * 1000)]
        nlinarith [sq_nonneg (x - 4)]

/-- Global lower bound of the crane-jib moment distribution. -/
lemma crane_M_ge : ∀ x : ℚ, 0 ≤ x → x ≤ 4 → -4600 ≤ CraneJibAnalysis.M x := by
  intro x h0 h4
  by_cases hx0 : x = 0
  · rw [hx0]
    norm_num [CraneJibAnalysis.M]
  · simp only [CraneJibAnalysis.M, CraneJibAnalysis.x_P1, CraneJibAnalysis.x_P2,
      CraneJibAnalysis.x_support_B, CraneJibAnalysis.P1, CraneJibAnalysis.P2,
      CraneJibAnalysis.w, crane_RA_eq, crane_RB_eq, if_neg hx0]
    rw [if_neg (by linarith : ¬(4000 : ℚ) < x * 1000)]
    rcases le_or_lt x (3 / 2) with h1 | h1
    · rw [if_neg (by linarith : ¬(1500 : ℚ) < x * 1000),
        if_neg (by linarith : ¬(3000 : ℚ) < x * 1000)]
      nlinarith [mul_nonneg h0 (by linarith : (0 : ℚ) ≤ 9500 / 3 - 400 * x)]
    · rw [if_pos (by linarith : (1500 : ℚ) < x * 1000)]
      rcases le_or_lt x 3 with h2 | h2
      · rw [if_neg (by linarith : ¬(3000 : ℚ) < x * 1000)]
        nlinarith [mul_nonneg (by linarith : (0 : ℚ) ≤ 3 - x)
          (by linarith : (0 : ℚ) ≤ x + 151 / 12)]
      · rw [if_pos (by linarith : (3000 : ℚ) < x * 1000)]
        nlinarith [mul_nonneg (by linarith : (0 : ℚ) ≤ x - 3)
          (by linarith : (0 : ℚ) ≤ 31 / 2 - x)]

/-- **C3**: the overhanging crane-jib fixture gives R_A ≈ 3167 N,
R_B ≈ 11233 N, V(0⁺) ≈ 3167 N, V(just before B, at 2999.9 mm) ≈ −6233 N,
V(just after B, at B with the evaluator's inclusive convention) = 5000 N,
M(1.5 m) ≈ 3850.5 N·m and is the global maximum, M(3 m) ≈ −4599 N·m and
is the global minimum, and M(4 m) = 0.  Each ≈ is a 0.1% relative
tolerance on the claimed value; the exact rational values are 9500/3,
33700/3, −6233.32/…, 3850 and −4600. -/
theorem crane_scenario :
    |CraneJibAnalysis.R_A - 3167| ≤ 3167 / 1000 ∧
    |CraneJibAnalysis.R_B - 11233| ≤ 11233 / 1000 ∧
    |CraneJibAnalysis.V 0 - 3167| ≤ 3167 / 1000 ∧
    |CraneJibAnalysis.V (29999 / 10000) - (-6233)| ≤ 6233 / 1000 ∧
    CraneJibAnalysis.V 3 = 5000 ∧
    |CraneJibAnalysis.M (3 / 2) - 7701 / 2| ≤ 7701 / 2000 ∧
    (∀ x : ℚ, 0 ≤ x → x ≤ 4 →
      CraneJibAnalysis.M x ≤ CraneJibAnalysis.M (3 / 2)) ∧
    |CraneJibAnalysis.M 3 - (-4599)| ≤ 4599 / 1000 ∧
    (∀ x : ℚ, 0 ≤ x → x ≤ 4 →
      CraneJibAnalysis.M 3 ≤ CraneJibAnalysis.M x) ∧
    CraneJibAnalysis.M 4 = 0 := by
  refine ⟨?_, ?_, ?_, ?_, ?_, ?_, ?_, ?_, ?_, ?_⟩
  · rw [crane_RA_eq, abs_le]
    constructor <;> norm_num
  · rw [crane_RB_eq, abs_le]
    constructor <;> norm_num
  · rw [abs_le]
    constructor <;>
      norm_num [CraneJibAnalysis.V, CraneJibAnalysis.x_P1,
        CraneJibAnalysis.x_P2, CraneJibAnalysis.x_support_B,
        CraneJibAnalysis.P1, CraneJibAnalysis.P2, CraneJibAnalysis.w,
        crane_RA_eq, crane_RB_eq]
  · rw [abs_le]
    constructor <;>
      norm_num [CraneJibAnalysis.V, CraneJibAnalysis.x_P1,
        CraneJibAnalysis.x_P2, CraneJibAnalysis.x_support_B,
        CraneJibAnalysis.P1, CraneJibAnalysis.P2, CraneJibAnalysis.w,
        crane_RA_eq, crane_RB_eq]
  · norm_num [CraneJibAnalysis.V, CraneJibAnalysis.x_P1,
      CraneJibAnalysis.x_P2, CraneJibAnalysis.x_support_B,
      CraneJibAnalysis.P1, CraneJibAnalysis.P2, CraneJibAnalysis.w,
      crane_RA_eq, crane_RB_eq]
  · rw [crane_M_15_eq, abs_le]
    constructor <;> norm_num
  · intro x hx0 hx4
    rw [crane_M_15_eq]
    exact crane_M_le x hx0 hx4
  · rw [crane_M_3_eq, abs_le]
    constructor <;> norm_num
  · intro x hx0 hx4
    rw [crane_M_3_eq]
    exact crane_M_ge x hx0 hx4
  · norm_num [CraneJibAnalysis.M, CraneJibAnalysis.x_P1,
      CraneJibAnalysis.x_P2, CraneJibAnalysis.x_support_B,
      CraneJibAnalysis.P1, CraneJibAnalysis.P2, CraneJibAnalysis.w,
      crane_RA_eq, crane_RB_eq]

/-- Witness for C3's two global extremum conjuncts at x = 2 m. -/
theorem crane_scenario_witness :
    CraneJibAnalysis.M 2 ≤ CraneJibAnalysis.M (3 / 2) ∧
    CraneJibAnalysis.M 3 ≤ CraneJibAnalysis.M 2 :=
  ⟨crane_scenario.2.2.2.2.2.2.1 2 (by norm_num) (by norm_num),
   crane_scenario.2.2.2.2.2.2.2.2.1 2 (by norm_num) (by norm_num)⟩

/-- **C4 counterexample**: at the conveyor's first load position
(x = 200 mm) the evaluator returns R_A = 1000 N — the 400 N load exactly
at the cut is NOT subtracted — while the claimed inclusive formula gives
600 N. -/
theorem shear_load_at_cut_counterexample :
    ConveyorBeamAnalysis.V 200 = 1000 ∧ shearAt conveyorBeam 200 = 600 ∧
    ConveyorBeamAnalysis.V 200 ≠ shearAt conveyorBeam 200 := by
  have h1 : ConveyorBeamAnalysis.V 200 = 1000 := by
    norm_num [ConveyorBeamAnalysis.V, ConveyorBeamAnalysis.load_positions,
      ConveyorBeamAnalysis.P, conveyor_RA_eq]
  have h2 : shearAt conveyorBeam 200 = 600 := by
    unfold shearAt
    rw [RA_conveyorBeam_eq, RB_conveyorBeam_eq]
    norm_num [conveyorBeam]
  refine ⟨h1, h2, ?_⟩
  rw [h1, h2]
  norm_num

/-- **C4 (amended)**: the crane-jib shear evaluator satisfies the claimed
cut formula with point loads at positions ≤ x included; the conveyor shear
evaluator instead subtracts only point loads strictly left of the cut and
never adds R_B, so it agrees with the claimed formula at every non-load
position left of the right support but excludes a load exactly at the
evaluation position (V(200) = R_A there). -/
theorem shear_cut_formula_amended :
    (∀ x : ℚ, 0 ≤ x → x ≤ 4 → CraneJibAnalysis.V x = shearAt craneBeam x) ∧
    (∀ x : ℚ, 0 ≤ x → x < 2000 → x ∉ ConveyorBeamAnalysis.load_positions →
      ConveyorBeamAnalysis.V x = shearAt conveyorBeam x) ∧
    ConveyorBeamAnalysis.V 200 = ConveyorBeamAnalysis.R_A := by
  refine ⟨?_, ?_, ?_⟩
  · intro x h0 h4
    unfold shearAt
    rw [RA_craneBeam_eq, RB_craneBeam_eq]
    simp only [craneBeam, List.map_cons, List.map_nil, List.sum_cons,
      List.sum_nil]
    rw [min_eq_left h4]
    simp only [CraneJibAnalysis.V, CraneJibAnalysis.x_P1,
      CraneJibAnalysis.x_P2, CraneJibAnalysis.x_support_B,
      CraneJibAnalysis.P1, CraneJibAnalysis.P2, CraneJibAnalysis.w,
      crane_RA_eq, crane_RB_eq]
    have e1 : ((1500 : ℚ) ≤ x * 1000) = ((3 / 2 : ℚ) ≤ x) :=
      propext ⟨fun h => by linarith, fun h => by linarith⟩
    have e2 : ((3000 : ℚ) ≤ x * 1000) = ((3 : ℚ) ≤ x) :=
      propext ⟨fun h => by linarith, fun h => by linarith⟩
    have e3 : ((4000 : ℚ) ≤ x * 1000) = ((4 : ℚ) ≤ x) :=
      propext ⟨fun h => by linarith, fun h => by linarith⟩
    simp only [e1, e2, e3]
    split_ifs <;> linarith
  · intro x h0 h2 hmem
    simp only [ConveyorBeamAnalysis.load_positions, List.mem_cons,
      List.not_mem_nil, or_false] at hmem
    push_neg at hmem
    obtain ⟨n1, n2, n3, n4, n5⟩ := hmem
    unfold shearAt
    rw [RA_conveyorBeam_eq, RB_conveyorBeam_eq]
    simp only [conveyorBeam, List.map_cons, List.map_nil, List.sum_cons,
      List.sum_nil]
    rw [if_pos h0, if_neg (by linarith : ¬(2000 : ℚ) ≤ x),
      ite_le_eq_ite_lt 200 x 400 n1, ite_le_eq_ite_lt 600 x 400 n2,
      ite_le_eq_ite_lt 1000 x 400 n3, ite_le_eq_ite_lt 1400 x 400 n4,
      ite_le_eq_ite_lt 1800 x 400 n5]
    simp only [ConveyorBeamAnalysis.V, ConveyorBeamAnalysis.load_positions,
      ConveyorBeamAnalysis.P, conveyor_RA_eq, List.map_cons, List.map_nil,
      List.sum_cons, List.sum_nil]
    ring
  · norm_num [ConveyorBeamAnalysis.V, ConveyorBeamAnalysis.load_positions,
      ConveyorBeamAnalysis.P]

/-- Witness for C4's amended theorem at x = 1 m on the crane jib. -/
theorem shear_cut_formula_amended_witness :
    CraneJibAnalysis.V 1 = shearAt craneBeam 1 :=
  shear_cut_formula_amended.1 1 (by norm_num) (by norm_num)

/-- **C6 counterexample**: the lab-1 cantilever shear evaluator returns
V(500) = 0 at the free end — `np.where(x < L, -P, 0)` — not the claimed
constant −500 N over the whole beam. -/
theorem cantilever_shear_counterexample :
    RoboticArmAnalysis.V 500 = 0 ∧ (0 : ℚ) ≠ -500 := by
  constructor
  · norm_num [RoboticArmAnalysis.V, RoboticArmAnalysis.L,
      RoboticArmAnalysis.P]
  · norm_num

/-- **C6 (amended)**: the cantilever solvers compute R_y as the sum of all
downward loads and the fixed-end moment as the sum of load × distance
(shown for both cantilever scripts against the general cantilever rule);
for the lab-1 fixture this gives R_y = 500 N, M_fixed = 250,000 N·mm,
V(x) = −500 N for 0 ≤ x < 500 with V(500) = 0 at the free end,
M(x) = −500(500 − x), M(500) = 0, and M(0) = −250,000 N·mm, the maximum
magnitude over the beam. -/
theorem cantilever_scenario_amended :
    RoboticArmAnalysis.R_y = cantileverRy [⟨500, 500⟩] [] ∧
    RoboticArmAnalysis.M_A = cantileverMfixed [⟨500, 500⟩] [] ∧
    RoboticArmCantileverAnalysis.R_y =
      cantileverRy [⟨5 / 2, 1200⟩] [⟨0, 5 / 2, 75⟩] ∧
    RoboticArmCantileverAnalysis.M_base =
      cantileverMfixed [⟨5 / 2, 1200⟩] [⟨0, 5 / 2, 75⟩] ∧
    RoboticArmAnalysis.R_y = 500 ∧
    RoboticArmAnalysis.M_A = 250000 ∧
    (∀ x : ℚ, 0 ≤ x → x < 500 → RoboticArmAnalysis.V x = -500) ∧
    RoboticArmAnalysis.V 500 = 0 ∧
    (∀ x : ℚ, RoboticArmAnalysis.M x = -500 * (500 - x)) ∧
    RoboticArmAnalysis.M 500 = 0 ∧
    RoboticArmAnalysis.M 0 = -250000 ∧
    (∀ x : ℚ, 0 ≤ x → x ≤ 500 → |RoboticArmAnalysis.M x| ≤ 250000) := by
  refine ⟨?_, ?_, ?_, ?_, ?_, ?_, ?_, ?_, ?_, ?_, ?_, ?_⟩
  · norm_num [RoboticArmAnalysis.R_y, RoboticArmAnalysis.P, cantileverRy]
  · norm_num [RoboticArmAnalysis.M_A, RoboticArmAnalysis.P,
      RoboticArmAnalysis.L, cantileverMfixed]
  · norm_num [RoboticArmCantileverAnalysis.R_y,
      RoboticArmCantileverAnalysis.P, RoboticArmCantileverAnalysis.W_total,
      RoboticArmCantileverAnalysis.w, RoboticArmCantileverAnalysis.L,
      cantileverRy]
  · norm_num [RoboticArmCantileverAnalysis.M_base,
      RoboticArmCantileverAnalysis.P, RoboticArmCantileverAnalysis.W_total,
      RoboticArmCantileverAnalysis.w, RoboticArmCantileverAnalysis.L,
      cantileverMfixed]
  · norm_num [RoboticArmAnalysis.R_y, RoboticArmAnalysis.P]
  · norm_num [RoboticArmAnalysis.M_A, RoboticArmAnalysis.P,
      RoboticArmAnalysis.L]
  · intro x h0 h5
    simp [RoboticArmAnalysis.V, RoboticArmAnalysis.L, RoboticArmAnalysis.P,
      h5]
  · norm_num [RoboticArmAnalysis.V, RoboticArmAnalysis.L,
      RoboticArmAnalysis.P]
  · intro x
    norm_num [RoboticArmAnalysis.M, RoboticArmAnalysis.L,
      RoboticArmAnalysis.P]
  · norm_num [RoboticArmAnalysis.M, RoboticArmAnalysis.L,
      RoboticArmAnalysis.P]
  · norm_num [RoboticArmAnalysis.M, RoboticArmAnalysis.L,
      RoboticArmAnalysis.P]
  · intro x h0 h5
    rw [abs_le]
    constructor <;>
      simp only [RoboticArmAnalysis.M, RoboticArmAnalysis.L,
        RoboticArmAnalysis.P] <;>
      linarith

/-- Witness for C6's amended theorem at the midpoint and the fixed end. -/
theorem cantilever_scenario_witness :
    RoboticArmAnalysis.V 250 = -500 ∧ |RoboticArmAnalysis.M 0| ≤ 250000 :=
  ⟨cantilever_scenario_amended.2.2.2.2.2.2.1 250 (by norm_num) (by norm_num),
   cantilever_scenario_amended.2.2.2.2.2.2.2.2.2.2.2 0 (by norm_num)
     (by norm_num)⟩

/-- **C7**: for every well-formed two-non-fixed-support beam, the general
cut-method moment formula gives M(0) = 0 and M(length) = 0 — exactly, as
a consequence of the solved reactions, with no special casing; the
conveyor and solar-tracker evaluators coincide with that general formula
on their fixtures (solar positions in mm, the general model in m), and
their endpoint moments are 0. -/
theorem free_end_moment_invariant :
    (∀ b : Beam, 0 < b.xB → b.xB ≤ b.length →
      (∀ p ∈ b.pointLoads, 0 ≤ p.pos ∧ p.pos ≤ b.length) →
      (∀ d ∈ b.distLoads,
        0 ≤ d.start ∧ d.start ≤ d.stop ∧ d.stop ≤ b.length) →
      momentAt b 0 = 0 ∧ momentAt b b.length = 0) ∧
    (∀ x : ℚ, x ≤ 2000 →
      ConveyorBeamAnalysis.M x = momentAt conveyorBeam x) ∧
    (∀ x : ℚ, 0 ≤ x → x ≤ 3000 →
      SolarTrackerArmAnalysis.M x = momentAt solarBeam (x / 1000)) ∧
    ConveyorBeamAnalysis.M 0 = 0 ∧ ConveyorBeamAnalysis.M 2000 = 0 ∧
    SolarTrackerArmAnalysis.M 0 = 0 ∧ SolarTrackerArmAnalysis.M 3000 = 0 := by
  refine ⟨?_, ?_, ?_, ?_, ?_, ?_, ?_⟩
  · intro b hxB hxBL hpts hdists
    have hne : b.xB ≠ 0 := ne_of_gt hxB
    constructor
    · unfold momentAt
      rw [if_neg (by linarith : ¬b.xB < 0),
        sum_point_cut_zero b.pointLoads (fun p hp => (hpts p hp).1),
        sum_dist_cut_zero b.distLoads (fun d hd => (hdists d hd).1)]
      ring
    · unfold momentAt
      have hite : (if b.xB < b.length then RB b * (b.length - b.xB) else 0) =
          RB b * (b.length - b.xB) := by
        rcases lt_or_eq_of_le hxBL with h | h
        · rw [if_pos h]
        · rw [if_neg (by rw [h]; exact lt_irrefl _), h]
          ring
      have hRB : RB b * b.xB = b.momentAboutA := by
        unfold RB
        exact div_mul_cancel₀ _ hne
      rw [hite,
        sum_point_cut_full b.length b.pointLoads (fun p hp => (hpts p hp).2),
        sum_dist_cut_full b.length b.distLoads
          (fun d hd => ⟨(hdists d hd).2.1, (hdists d hd).2.2⟩)]
      unfold RA Beam.totalPoint Beam.totalDist
      unfold Beam.momentAboutA at hRB
      linear_combination -hRB
  · intro x h2000
    unfold momentAt
    rw [RA_conveyorBeam_eq]
    simp only [conveyorBeam, List.map_cons, List.map_nil, List.sum_cons,
      List.sum_nil]
    rw [if_neg (not_lt.mpr h2000)]
    simp only [ConveyorBeamAnalysis.M, ConveyorBeamAnalysis.load_positions,
      ConveyorBeamAnalysis.P, conveyor_RA_eq, List.map_cons, List.map_nil,
      List.sum_cons, List.sum_nil]
    ring
  · intro x h0 h3000
    unfold momentAt
    rw [RA_solarBeam_eq, RB_solarBeam_eq]
    simp only [solarBeam, List.map_cons, List.map_nil, List.sum_cons,
      List.sum_nil]
    rw [if_neg (by linarith : ¬(3 : ℚ) < x / 1000),
      min_eq_left (by linarith : x / 1000 ≤ (3 : ℚ))]
    simp only [SolarTrackerArmAnalysis.M, SolarTrackerArmAnalysis.x_B,
      SolarTrackerArmAnalysis.L_span, SolarTrackerArmAnalysis.w,
      solar_RA_eq, solar_RB_eq]
    rcases le_or_lt x 2500 with h | h
    · rw [if_pos h, if_neg (by linarith : ¬(5 / 2 : ℚ) < x / 1000)]
      rcases lt_or_eq_of_le h0 with hpos | hzero
      · rw [if_pos (by linarith : (0 : ℚ) < x / 1000)]
        ring
      · rw [← hzero]
        norm_num
    · rw [if_neg (not_le.mpr h),
        if_pos (by linarith : (5 / 2 : ℚ) < x / 1000),
        if_pos (by linarith : (0 : ℚ) < x / 1000)]
      ring
  · norm_num [ConveyorBeamAnalysis.M, ConveyorBeamAnalysis.load_positions,
      ConveyorBeamAnalysis.P, conveyor_RA_eq]
  · norm_num [ConveyorBeamAnalysis.M, ConveyorBeamAnalysis.load_positions,
      ConveyorBeamAnalysis.P, conveyor_RA_eq]
  · norm_num [SolarTrackerArmAnalysis.M, SolarTrackerArmAnalysis.x_B,
      SolarTrackerArmAnalysis.L_span, SolarTrackerArmAnalysis.w,
      solar_RA_eq, solar_RB_eq]
  · norm_num [SolarTrackerArmAnalysis.M, SolarTrackerArmAnalysis.x_B,
      SolarTrackerArmAnalysis.L_span, SolarTrackerArmAnalysis.w,
      solar_RA_eq, solar_RB_eq]

/-- Witness for C7's general part at the conveyor fixture. -/
theorem free_end_moment_invariant_witness :
    momentAt conveyorBeam 0 = 0 ∧
    momentAt conveyorBeam conveyorBeam.length = 0 :=
  free_end_moment_invariant.1 conveyorBeam (by norm_num [conveyorBeam])
    (by norm_num [conveyorBeam])
    (by intro p hp; fin_cases hp <;> norm_num [conveyorBeam])
    (by intro d hd; fin_cases hd)

/-- **C8**: reactions, shear and moment are linear in the loads — solving
the same geometry under two load sets separately and summing equals
solving it once under the concatenated load set, at every position. -/
theorem superposition :
    ∀ (len xB : ℚ) (p1 p2 : List PointLoad) (d1 d2 : List DistLoad),
      RA ⟨len, xB, p1 ++ p2, d1 ++ d2⟩ =
        RA ⟨len, xB, p1, d1⟩ + RA ⟨len, xB, p2, d2⟩ ∧
      RB ⟨len, xB, p1 ++ p2, d1 ++ d2⟩ =
        RB ⟨len, xB, p1, d1⟩ + RB ⟨len, xB, p2, d2⟩ ∧
      ∀ x : ℚ,
        shearAt ⟨len, xB, p1 ++ p2, d1 ++ d2⟩ x =
          shearAt ⟨len, xB, p1, d1⟩ x + shearAt ⟨len, xB, p2, d2⟩ x ∧
        momentAt ⟨len, xB, p1 ++ p2, d1 ++ d2⟩ x =
          momentAt ⟨len, xB, p1, d1⟩ x + momentAt ⟨len, xB, p2, d2⟩ x := by
  intro len xB p1 p2 d1 d2
  have hRB : RB ⟨len, xB, p1 ++ p2, d1 ++ d2⟩ =
      RB ⟨len, xB, p1, d1⟩ + RB ⟨len, xB, p2, d2⟩ := by
    unfold RB Beam.momentAboutA
    simp only [List.map_append, List.sum_append]
    rw [div_add_div_same]
    congr 1
    ring
  have hRA : RA ⟨len, xB, p1 ++ p2, d1 ++ d2⟩ =
      RA ⟨len, xB, p1, d1⟩ + RA ⟨len, xB, p2, d2⟩ := by
    unfold RA Beam.totalPoint Beam.totalDist
    rw [hRB]
    simp only [List.map_append, List.sum_append]
    ring
  refine ⟨hRA, hRB, fun x => ⟨?_, ?_⟩⟩
  · unfold shearAt
    rw [hRA, hRB]
    simp only [List.map_append, List.sum_append]
    split_ifs <;> ring
  · unfold momentAt
    rw [hRA, hRB]
    simp only [List.map_append, List.sum_append]
    split_ifs <;> ring

/-- **C10**: the two pantograph models of the same arm disagree: the fixed
cantilever model's maximum moment magnitude is 960,000 N·mm (at the arm
end station), while the pin+spring model's is 720 N·m at the spring
(x = 0.3 m); at the arm end station (1200 mm = 1.2 m) their moments
differ (−960,000 N·mm vs 0). -/
theorem pantograph_models_divergence :
    PantographAnalysis.max_moment = 960000 ∧
    (∀ x : ℚ, 0 ≤ x → x ≤ 1200 → |PantographAnalysis.M x| ≤ 960000) ∧
    |PantographAnalysis.M 1200| = 960000 ∧
    (∀ x : ℚ, 0 ≤ x → x ≤ 6 / 5 → |PantographArmAnalysis.M x| ≤ 720) ∧
    |PantographArmAnalysis.M (3 / 10)| = 720 ∧
    PantographAnalysis.M 1200 ≠ 1000 * PantographArmAnalysis.M (6 / 5) := by
  refine ⟨?_, ?_, ?_, pantographArm_M_bound, ?_, ?_⟩
  · unfold PantographAnalysis.max_moment
    rw [show PantographAnalysis.P * PantographAnalysis.L = (960000 : ℚ) by
      norm_num [PantographAnalysis.P, PantographAnalysis.L]]
    rw [abs_of_nonneg (by norm_num)]
  · intro x h0 h12
    rw [abs_le]
    unfold PantographAnalysis.M PantographAnalysis.P
    constructor <;> linarith
  · rw [show PantographAnalysis.M 1200 = (-960000 : ℚ) by
      norm_num [PantographAnalysis.M, PantographAnalysis.P]]
    rw [abs_of_nonpos (by norm_num)]
    norm_num
  · rw [show PantographArmAnalysis.M (3 / 10) = (-720 : ℚ) by
      norm_num [PantographArmAnalysis.M, PantographArmAnalysis.x_spring,
        pantograph_RA_eq, pantograph_F_spring_eq]]
    rw [abs_of_nonpos (by norm_num)]
    norm_num
  · rw [show PantographAnalysis.M 1200 = (-960000 : ℚ) by
      norm_num [PantographAnalysis.M, PantographAnalysis.P],
      show PantographArmAnalysis.M (6 / 5) = (0 : ℚ) by
      norm_num [PantographArmAnalysis.M, PantographArmAnalysis.x_spring,
        pantograph_RA_eq, pantograph_F_spring_eq]]
    norm_num

/-- Witness for C10's bounded-magnitude conjuncts at interior stations. -/
theorem pantograph_models_divergence_witness :
    |PantographAnalysis.M 600| ≤ 960000 ∧
    |PantographArmAnalysis.M (3 / 5)| ≤ 720 :=
  ⟨pantograph_models_divergence.2.1 600 (by norm_num) (by norm_num),
   pantograph_models_divergence.2.2.2.1 (3 / 5) (by norm_num) (by norm_num)⟩
